import Mathlib

/-!
Verification development for the `healthcare-api-dicom-viewer` repository.

The embedding below models, from the JavaScript source:

* `src/dicomImageLoader.js` — the module-level `defaultConfig` / `config`
  objects and `configure` (an `Object.assign` merge), the decoder
  `createImageObjectFromDicom` (driven by a `dicom-parser` `DataSet`), the
  `loadImage` promise executor with its two paths (inline fetch vs. the
  webworker path), and the module-level `availableWebworkers` list used as a
  worker pool (`pop` to acquire, `push` inside the `onmessage` handler to
  release).
* `api.js` — `authenticatedFetch`, which consults the access token, triggers
  the Google sign-in flow on a 401 response or a missing token, and throws
  only for non-401 failures.

JavaScript-specific behaviour is modelled explicitly: a value that may be
`undefined` becomes an `Option`, a `NaN`-producing arithmetic result becomes
`none`, the truthiness test `!v` on a possibly-`undefined` number is
`jsFalsyInt`, and a thrown exception becomes `Except.error`.  An `Int16Array`
view constructed over a buffer without a length argument spans from its byte
offset to the end of the buffer, in signed 16-bit little-endian samples, and
throws a `RangeError` when the offset is misaligned, past the end of the
buffer, or leaves an odd number of bytes.
-/

namespace DicomViewer

/-- A JavaScript runtime error surfaced by the modelled code: `typeError` for
a property access on `undefined`, `rangeError` from the `Int16Array`
constructor, `httpError` for the `Error` thrown by `authenticatedFetch` on a
non-401 failure, `netError` for a transport-level fetch rejection. -/
inductive JsError where
  | typeError
  | rangeError
  | httpError (status : Nat)
  | netError
deriving DecidableEq, Repr

/-- Signed interpretation of a 16-bit sample value (two's complement). -/
def toSigned16 (n : Nat) : Int :=
  if n % 65536 < 32768 then ((n % 65536 : Nat) : Int)
  else ((n % 65536 : Nat) : Int) - 65536

/-- Reinterpret a byte list as little-endian signed 16-bit samples, dropping
a trailing odd byte (the model only applies this to even-length suffixes; the
`Int16Array` constructor's `RangeError` on an odd remainder is raised by the
caller). -/
def bytesToInt16 : List Nat → List Int
  | b0 :: b1 :: rest => toSigned16 (b0 % 256 + 256 * (b1 % 256)) :: bytesToInt16 rest
  | _ => []

/-- The `x7fe00010` element of a parsed `dicom-parser` data set: the byte
offset of the pixel-data block inside the payload and the block's declared
byte length. -/
structure PixelElement where
  dataOffset : Nat
  length : Nat
deriving DecidableEq, Repr

/-- A parsed `dicom-parser` `DataSet`, restricted to the accessors
`createImageObjectFromDicom` uses.  Each accessor returns `undefined` when
the tag is absent, hence the `Option`s.  `byteArray` is the raw payload the
data set was parsed from (`dataSet.byteArray`). -/
structure DataSet where
  rows? : Option Nat
  columns? : Option Nat
  photoInterp? : Option String
  smallest? : Option Int
  largest? : Option Int
  pixelElement? : Option PixelElement
  byteArray : List Nat
deriving DecidableEq, Repr

/-- The cornerstone image object built by `createImageObjectFromDicom`.
`minPixelValue`/`maxPixelValue` are `none` when the JS value is `undefined`
(empty pixel buffer and no dataset-provided value); `windowCenter`,
`windowWidth` and `sizeInBytes` are `none` when the JS arithmetic yields
`NaN`. -/
structure Image where
  imageId : String
  minPixelValue : Option Int
  maxPixelValue : Option Int
  slope : ℚ
  intercept : Int
  windowCenter : Option ℚ
  windowWidth : Option Int
  pixelData : List Int
  rows : Option Nat
  columns : Option Nat
  height : Option Nat
  width : Option Nat
  color : Bool
  invert : Bool
  sizeInBytes : Option Nat
deriving DecidableEq, Repr

/-- JavaScript falsiness of a possibly-`undefined` number: `!v` is true for
`undefined` and for `0`. -/
def jsFalsyInt : Option Int → Bool
  | none => true
  | some v => v == 0

/-- The `minPixelValue` scan loop: start from `pixelData[0]` (which is
`undefined` on an empty buffer, in which case every comparison in the loop
is false and the result stays `undefined`). -/
def scanForMin : List Int → Option Int
  | [] => none
  | p :: rest => some (rest.foldl (fun acc x => if x < acc then x else acc) p)

/-- The `maxPixelValue` scan loop, symmetric to `scanForMin`. -/
def scanForMax : List Int → Option Int
  | [] => none
  | p :: rest => some (rest.foldl (fun acc x => if acc < x then x else acc) p)

/-- `createImageObjectFromDicom(imageId, dicomByteArray)` after
`dicomParser.parseDicom` has produced `ds`.  Mirrors the source line by
line: read `columns`/`rows`/`photometric interpretation`, compare the
photometric interpretation against `'MONOCHROME1'`, access
`dataSet.elements.x7fe00010` (a `TypeError` when absent), construct the
`Int16Array` view from `dataOffset` to the end of the buffer (a
`RangeError` when misaligned, out of bounds, or an odd byte count remains),
fall back to the scan loops when the provided min/max is falsy, and derive
`windowCenter`/`windowWidth` from the chosen min/max. -/
def createImageObjectFromDicom (imageId : String) (ds : DataSet) :
    Except JsError Image :=
  let width := ds.columns?
  let height := ds.rows?
  let photoInterp := ds.photoInterp?
  let invert := photoInterp == some "MONOCHROME1"
  match ds.pixelElement? with
  | none => .error .typeError
  | some pixelDataElement =>
    if pixelDataElement.dataOffset % 2 ≠ 0 ∨
        ds.byteArray.length < pixelDataElement.dataOffset ∨
        (ds.byteArray.length - pixelDataElement.dataOffset) % 2 ≠ 0 then
      .error .rangeError
    else
      let pixelData := bytesToInt16 (ds.byteArray.drop pixelDataElement.dataOffset)
      let minPixelValue :=
        if jsFalsyInt ds.smallest? then scanForMin pixelData else ds.smallest?
      let maxPixelValue :=
        if jsFalsyInt ds.largest? then scanForMax pixelData else ds.largest?
      .ok {
        imageId := imageId
        minPixelValue := minPixelValue
        maxPixelValue := maxPixelValue
        slope := 1
        intercept := 0
        windowCenter :=
          match maxPixelValue, minPixelValue with
          | some M, some m => some (((M + m : Int) : ℚ) / 2)
          | _, _ => none
        windowWidth :=
          match maxPixelValue, minPixelValue with
          | some M, some m => some (M - m)
          | _, _ => none
        pixelData := pixelData
        rows := height
        columns := width
        height := height
        width := width
        color := false
        invert := invert
        sizeInBytes :=
          match width, height with
          | some w, some h => some (w * h)
          | _, _ => none }

/-- The module-level configuration object of `dicomImageLoader.js`.  The JS
object literally declares only the key `useWebworkersToFetch`; the
`useWebworkersToParse` field models a key that is *not* declared anywhere in
the module and is present on the object (`some b`) only after some
`configure` call copied it in. -/
structure LoaderConfig where
  useWebworkersToFetch : Bool
  useWebworkersToParse : Option Bool
deriving DecidableEq, Repr

/-- `defaultConfig = { useWebworkersToFetch: false }`: a single declared key,
defaulting to `false`; no parse/decode key exists on the object. -/
def defaultConfig : LoaderConfig :=
  { useWebworkersToFetch := false, useWebworkersToParse := none }

/-- The `newConfig` argument of `configure`: a JS object in which each of the
two keys the callers ever pass may be present or absent. -/
structure ConfigPatch where
  useWebworkersToFetch : Option Bool
  useWebworkersToParse : Option Bool
deriving DecidableEq, Repr

/-- `configure(newConfig)`, i.e. `Object.assign(config, defaultConfig,
newConfig)`: for the declared key `useWebworkersToFetch`, `defaultConfig`
always overwrites the current value and `newConfig` overwrites it again only
when present; for `useWebworkersToParse`, `defaultConfig` carries no key, so
the current value survives unless `newConfig` carries one. -/
def configure (config : LoaderConfig) (newConfig : ConfigPatch) : LoaderConfig :=
  { useWebworkersToFetch :=
      newConfig.useWebworkersToFetch.getD defaultConfig.useWebworkersToFetch
    useWebworkersToParse :=
      match newConfig.useWebworkersToParse with
      | some b => some b
      | none => config.useWebworkersToParse }

/-- The eventual fate of the promise returned by `loadImage`: resolved with
an image, rejected with an error, or never settled because no reachable code
path calls `resolve` or `reject`. -/
inductive Settlement where
  | resolved (image : Image)
  | rejected (e : JsError)
  | unsettled
deriving DecidableEq, Repr

/-- The settlement of the promise built by `loadImage(imageId)`, as a
function of the configuration and of the outcome of fetching-and-parsing the
payload (`.error` when `api.fetchDicomFile` rejects or
`dicomParser.parseDicom` throws — both land in the same `.catch`).

In the source, when `config.useWebworkersToFetch` is set the executor
acquires a webworker, installs an `onmessage` handler whose whole body is
`availableWebworkers.push(webworker)`, posts `{action: 'fetchDicom', url}`
and returns; neither the executor nor the handler ever invokes `resolve` or
`reject`, so in that path no settlement of the promise is reachable
regardless of what the worker sends back.  In the inline path the `.then`
callback decodes and resolves, and the trailing `.catch` rejects with any
fetch, parse or decode error. -/
def loadImage (config : LoaderConfig) (imageId : String)
    (fetchResult : Except JsError DataSet) : Settlement :=
  if config.useWebworkersToFetch then
    Settlement.unsettled
  else
    match fetchResult with
    | .error e => .rejected e
    | .ok ds =>
      match createImageObjectFromDicom imageId ds with
      | .ok image => .resolved image
      | .error e => .rejected e

/-- One webworker unit: its creation index and the `onmessage` handler
currently installed on it (`some g` tags the handler installed by the
`loadImage` run numbered `g`; a freshly constructed worker has none). -/
structure WorkerUnit where
  id : Nat
  onmessage : Option Nat
deriving DecidableEq, Repr

/-- The module-level worker pool of `dicomImageLoader.js`: the
`availableWebworkers` array plus a counter of `new DicomWorker()`
constructions (the observable creation counter). -/
structure WorkerPool where
  availableWebworkers : List WorkerUnit
  createdCount : Nat
deriving DecidableEq, Repr

/-- `availableWebworkers.length > 0 ? availableWebworkers.pop() : new
DicomWorker()`: pop the last element of the array when it is non-empty,
otherwise construct a fresh unit and bump the creation counter. -/
def acquireWebworker (pool : WorkerPool) : WorkerUnit × WorkerPool :=
  match pool.availableWebworkers.getLast? with
  | some webworker =>
      (webworker,
        { availableWebworkers := pool.availableWebworkers.dropLast
          createdCount := pool.createdCount })
  | none =>
      ({ id := pool.createdCount, onmessage := none },
        { availableWebworkers := pool.availableWebworkers
          createdCount := pool.createdCount + 1 })

/-- `webworker.onmessage = (event) => { availableWebworkers.push(webworker) }`:
installing the handler of run `g` on the unit. -/
def dispatchFetch (webworker : WorkerUnit) (g : Nat) : WorkerUnit :=
  { id := webworker.id, onmessage := some g }

/-- The body of the installed `onmessage` handler once the worker's reply
arrives: `availableWebworkers.push(webworker)`.  The unit is appended
as-is — nothing clears `onmessage` or any other state. -/
def handleWorkerMessage (pool : WorkerPool) (webworker : WorkerUnit) : WorkerPool :=
  { availableWebworkers := pool.availableWebworkers ++ [webworker]
    createdCount := pool.createdCount }

/-- One full webworker fetch cycle of run `g`: acquire a unit, install the
run's `onmessage` handler, post the message, and (once the reply arrives)
push the unit back onto `availableWebworkers`. -/
def workerFetchCycle (pool : WorkerPool) (g : Nat) : WorkerPool :=
  let acquired := acquireWebworker pool
  handleWorkerMessage acquired.2 (dispatchFetch acquired.1 g)

/-- A fetch `Response` as far as `authenticatedFetch` inspects it. -/
structure Response where
  ok : Bool
  status : Nat
deriving DecidableEq, Repr

/-- `authenticatedFetch(url)` from `api.js`, as a function of the current
access token and of the response the transport would deliver.  Returns the
function's result (`.ok none` models returning `undefined` from the
missing-token branch) paired with the number of `auth.signInToGoogle()`
calls performed.  With a token and a non-ok response: status 401 triggers
sign-in and then falls through to `return response`; any other status throws
`new Error(...)`. -/
def authenticatedFetch (accessToken : Option String) (response : Response) :
    Except JsError (Option Response) × Nat :=
  match accessToken with
  | some _ =>
    if !response.ok then
      if response.status == 401 then
        (.ok (some response), 1)
      else
        (.error (.httpError response.status), 0)
    else
      (.ok (some response), 0)
  | none => (.ok none, 1)

/-- Success test for a modelled JS call: did it return rather than throw? -/
def returnedOk {α : Type} (r : Except JsError α) : Bool :=
  match r with
  | .ok _ => true
  | .error _ => false

/-- Spec-side success condition: the decoder can build its pixel view — the
`x7fe00010` element exists and the `Int16Array` constructor's requirements
hold.  Compared against the embedded decoder in the C4 theorem. -/
def validPixelView (ds : DataSet) : Bool :=
  match ds.pixelElement? with
  | none => false
  | some e =>
      decide (e.dataOffset % 2 = 0 ∧ e.dataOffset ≤ ds.byteArray.length ∧
        (ds.byteArray.length - e.dataOffset) % 2 = 0)

/-! ## Concrete payloads used by the claim theorems

Little-endian signed 16-bit encodings: `[10, 0] = 10`, `[50, 0] = 50`,
`[251, 255] = -5`, `[30, 0] = 30`. -/

/-- The spec's synthetic payload: rows=2, columns=2, `MONOCHROME2`, no
min/max tags, pixel samples `[10, 50, -5, 30]`. -/
def dsMono2 : DataSet :=
  { rows? := some 2, columns? := some 2, photoInterp? := some "MONOCHROME2",
    smallest? := none, largest? := none,
    pixelElement? := some { dataOffset := 0, length := 8 },
    byteArray := [10, 0, 50, 0, 251, 255, 30, 0] }

/-- The same payload with photometric interpretation `MONOCHROME1`. -/
def dsMono1 : DataSet :=
  { rows? := some 2, columns? := some 2, photoInterp? := some "MONOCHROME1",
    smallest? := none, largest? := none,
    pixelElement? := some { dataOffset := 0, length := 8 },
    byteArray := [10, 0, 50, 0, 251, 255, 30, 0] }

/-- The image the decoder produces from `dsMono2`. -/
def imgMono2 : Image :=
  { imageId := "img", minPixelValue := some (-5), maxPixelValue := some 50,
    slope := 1, intercept := 0, windowCenter := some ((45 : ℚ) / 2),
    windowWidth := some 55, pixelData := [10, 50, -5, 30],
    rows := some 2, columns := some 2, height := some 2, width := some 2,
    color := false, invert := false, sizeInBytes := some 4 }

/-- The image the decoder produces from `dsMono1`: identical to `imgMono2`
except for the inversion flag. -/
def imgMono1 : Image :=
  { imageId := "img", minPixelValue := some (-5), maxPixelValue := some 50,
    slope := 1, intercept := 0, windowCenter := some ((45 : ℚ) / 2),
    windowWidth := some 55, pixelData := [10, 50, -5, 30],
    rows := some 2, columns := some 2, height := some 2, width := some 2,
    color := false, invert := true, sizeInBytes := some 4 }

/-- A payload whose `x00280106` (smallest value) tag is present with value
`0`, while the actual smallest pixel sample is `5`; the largest-value tag is
a non-zero `9`. -/
def dsZeroMin : DataSet :=
  { rows? := some 1, columns? := some 2, photoInterp? := some "MONOCHROME2",
    smallest? := some 0, largest? := some 9,
    pixelElement? := some { dataOffset := 0, length := 4 },
    byteArray := [5, 0, 7, 0] }

/-- The image the decoder produces from `dsZeroMin`: the provided `0` is
falsy, so the min is recomputed by the scan. -/
def imgZeroMin : Image :=
  { imageId := "zero", minPixelValue := some 5, maxPixelValue := some 9,
    slope := 1, intercept := 0, windowCenter := some ((14 : ℚ) / 2),
    windowWidth := some 4, pixelData := [5, 7],
    rows := some 1, columns := some 2, height := some 1, width := some 2,
    color := false, invert := false, sizeInBytes := some 2 }

/-! ## Supporting lemmas -/

/-- The decoder's min scan loop computes the list minimum. -/
theorem scanForMin_eq_min? (l : List Int) : scanForMin l = l.min? := by
  cases l with
  | nil => rfl
  | cons p rest =>
    simp only [scanForMin, List.min?, Option.some.injEq]
    induction rest generalizing p with
    | nil => rfl
    | cons a rest ih =>
      simp only [List.foldl_cons]
      rw [ih]
      congr 1
      simp only [min_def]
      split <;> split <;> omega

/-- The decoder's max scan loop computes the list maximum. -/
theorem scanForMax_eq_max? (l : List Int) : scanForMax l = l.max? := by
  cases l with
  | nil => rfl
  | cons p rest =>
    simp only [scanForMax, List.max?, Option.some.injEq]
    induction rest generalizing p with
    | nil => rfl
    | cons a rest ih =>
      simp only [List.foldl_cons]
      rw [ih]
      congr 1
      simp only [max_def]
      split <;> split <;> omega

/-- An `Int16Array` view over `l` holds `l.length / 2` samples. -/
theorem bytesToInt16_length : ∀ l : List Nat, (bytesToInt16 l).length = l.length / 2
  | [] => rfl
  | [_] => by simp [bytesToInt16]
  | _ :: _ :: rest => by
      simp [bytesToInt16, bytesToInt16_length rest]
      omega

/-! ## Claim theorems -/

/-- C2: for every successfully decoded payload the image's window center is
`(max + min) / 2`, its window width is `max - min`, and the inversion flag
is set exactly when the photometric interpretation equals `MONOCHROME1`;
and on the spec's synthetic 2×2 payload with samples `[10, 50, -5, 30]` the
decoder yields min `-5`, max `50`, center `22.5`, width `55`, inverted
`false` under `MONOCHROME2` and inverted `true` (same numbers) under
`MONOCHROME1`. -/
theorem decode_window_derivation_and_monochrome_flag :
    (∀ (imageId : String) (ds : DataSet) (image : Image),
      createImageObjectFromDicom imageId ds = .ok image →
      ((image.invert = true ↔ ds.photoInterp? = some "MONOCHROME1") ∧
       ∀ m M : Int, image.minPixelValue = some m → image.maxPixelValue = some M →
         image.windowCenter = some (((M + m : Int) : ℚ) / 2) ∧
         image.windowWidth = some (M - m)))
    ∧ createImageObjectFromDicom "img" dsMono2 = .ok imgMono2
    ∧ createImageObjectFromDicom "img" dsMono1 = .ok imgMono1
    ∧ imgMono2.minPixelValue = some (-5) ∧ imgMono2.maxPixelValue = some 50
    ∧ imgMono2.windowCenter = some ((45 : ℚ) / 2) ∧ imgMono2.windowWidth = some 55
    ∧ imgMono2.invert = false ∧ imgMono1.invert = true
    ∧ imgMono1.minPixelValue = imgMono2.minPixelValue
    ∧ imgMono1.maxPixelValue = imgMono2.maxPixelValue
    ∧ imgMono1.windowCenter = imgMono2.windowCenter
    ∧ imgMono1.windowWidth = imgMono2.windowWidth := by
  refine ⟨?_, rfl, rfl, rfl, rfl, rfl, rfl, rfl, rfl, rfl, rfl, rfl, rfl⟩
  intro imageId ds image h
  simp only [createImageObjectFromDicom] at h
  split at h
  · exact absurd h (by simp)
  · split at h
    · exact absurd h (by simp)
    · injection h with h
      subst h
      refine ⟨by simp, ?_⟩
      intro m M hm hM
      simp only at hm hM ⊢
      rw [hM, hm]
      exact ⟨rfl, rfl⟩

/-- C2 witness: the window-derivation theorem applied to the decode of the
spec's synthetic `MONOCHROME2` payload. -/
theorem decode_window_derivation_and_monochrome_flag_witness :
    imgMono2.windowCenter = some (((50 + (-5) : Int) : ℚ) / 2) ∧
    imgMono2.windowWidth = some (50 - (-5)) :=
  (decode_window_derivation_and_monochrome_flag.1 "img" dsMono2 imgMono2 rfl).2
    (-5) 50 rfl rfl

/-- C3 counterexample: a payload whose smallest-value tag is present with
value `0` does *not* have that value used — `!minPixelValue` is true for
`0`, so the scan overwrites it (here the buffer scan yields `5`). -/
theorem decode_zero_min_tag_ignored_cex :
    dsZeroMin.smallest? = some 0 ∧
    createImageObjectFromDicom "zero" dsZeroMin = .ok imgZeroMin ∧
    imgZeroMin.minPixelValue = some 5 ∧
    some (5 : Int) ≠ some (0 : Int) :=
  ⟨rfl, rfl, rfl, by decide⟩

/-- C3 amended: the decoder uses the dataset-provided min/max only when it
is present *and non-zero* (JS truthiness); when the tag is absent or its
value is `0`, it falls back to a scan of the pixel buffer whose result is
exactly the buffer's minimum/maximum. -/
theorem decode_minmax_provided_truthy_or_scan :
    ∀ (imageId : String) (ds : DataSet) (image : Image),
      createImageObjectFromDicom imageId ds = .ok image →
      image.minPixelValue =
        (if jsFalsyInt ds.smallest? then image.pixelData.min? else ds.smallest?) ∧
      image.maxPixelValue =
        (if jsFalsyInt ds.largest? then image.pixelData.max? else ds.largest?) := by
  intro imageId ds image h
  simp only [createImageObjectFromDicom] at h
  split at h
  · exact absurd h (by simp)
  · split at h
    · exact absurd h (by simp)
    · injection h with h
      subst h
      constructor
      · simp only
        rw [scanForMin_eq_min?]
      · simp only
        rw [scanForMax_eq_max?]

/-- C3 witness: the amended min/max policy applied to the decode of
`dsZeroMin`, whose smallest-value tag holds the falsy `0` and whose
largest-value tag holds the truthy `9`. -/
theorem decode_minmax_provided_truthy_or_scan_witness :
    imgZeroMin.minPixelValue =
      (if jsFalsyInt dsZeroMin.smallest? then imgZeroMin.pixelData.min?
       else dsZeroMin.smallest?) ∧
    imgZeroMin.maxPixelValue =
      (if jsFalsyInt dsZeroMin.largest? then imgZeroMin.pixelData.max?
       else dsZeroMin.largest?) :=
  decode_minmax_provided_truthy_or_scan "zero" dsZeroMin imgZeroMin rfl

/-- A payload with every required tag absent except the pixel-data element
itself. -/
def dsNoTags : DataSet :=
  { rows? := none, columns? := none, photoInterp? := none,
    smallest? := none, largest? := none,
    pixelElement? := some { dataOffset := 0, length := 2 },
    byteArray := [1, 0] }

/-- A payload declaring rows=2, columns=2 (8 pixel bytes) over a pixel-data
block of only 4 bytes. -/
def dsShortBlock : DataSet :=
  { rows? := some 2, columns? := some 2, photoInterp? := some "MONOCHROME2",
    smallest? := some 1, largest? := some 2,
    pixelElement? := some { dataOffset := 0, length := 4 },
    byteArray := [1, 0, 2, 0] }

/-- C4 counterexample: the decoder succeeds on a payload missing rows,
columns and photometric interpretation, and also on a payload whose declared
rows×columns×2 (= 8) exceeds the pixel-data block length (= 4) — no
`DecodeError` is raised and an image record is produced in both cases. -/
theorem decode_missing_tags_and_short_block_accepted_cex :
    dsNoTags.rows? = none ∧ dsNoTags.columns? = none ∧
    dsNoTags.photoInterp? = none ∧
    returnedOk (createImageObjectFromDicom "a" dsNoTags) = true ∧
    dsShortBlock.rows? = some 2 ∧ dsShortBlock.columns? = some 2 ∧
    (dsShortBlock.pixelElement?.map PixelElement.length) = some 4 ∧
    2 * 2 * 2 > 4 ∧
    returnedOk (createImageObjectFromDicom "b" dsShortBlock) = true :=
  ⟨rfl, rfl, rfl, rfl, rfl, rfl, rfl, by decide, rfl⟩

/-- C4 amended: the decoder validates nothing about rows, columns,
photometric interpretation or the declared block length; it fails exactly
when the pixel-data view cannot be built — the `x7fe00010` element is
absent (a type error on `.dataOffset`) or the `Int16Array` constructor
rejects the offset/remaining length (a range error). -/
theorem decode_fails_iff_pixel_view_invalid :
    ∀ (imageId : String) (ds : DataSet),
      returnedOk (createImageObjectFromDicom imageId ds) = validPixelView ds := by
  intro imageId ds
  cases hpe : ds.pixelElement? with
  | none => simp [createImageObjectFromDicom, validPixelView, hpe, returnedOk]
  | some e =>
    simp only [createImageObjectFromDicom, validPixelView, hpe]
    by_cases hv : e.dataOffset % 2 ≠ 0 ∨
        ds.byteArray.length < e.dataOffset ∨
        (ds.byteArray.length - e.dataOffset) % 2 ≠ 0
    · rw [if_pos hv]
      have : ¬(e.dataOffset % 2 = 0 ∧ e.dataOffset ≤ ds.byteArray.length ∧
          (ds.byteArray.length - e.dataOffset) % 2 = 0) := by
        rcases hv with h | h | h <;> omega
      simp [returnedOk, this]
    · rw [if_neg hv]
      push_neg at hv
      simp [returnedOk, hv.1, hv.2.1, hv.2.2]

/-- The payload for the C8 counterexample: a 2-sample pixel block (rows=1,
columns=2, block length 4) at offset 0 of an 8-byte buffer, so 4 bytes of
trailing data follow the block. -/
def dsTrailing : DataSet :=
  { rows? := some 1, columns? := some 2, photoInterp? := some "MONOCHROME2",
    smallest? := some 1, largest? := some 4,
    pixelElement? := some { dataOffset := 0, length := 4 },
    byteArray := [1, 0, 2, 0, 3, 0, 4, 0] }

/-- The image the decoder produces from `dsTrailing`: its pixel view holds
four samples, not the two that rows×columns dictates. -/
def imgTrailing : Image :=
  { imageId := "x", minPixelValue := some 1, maxPixelValue := some 4,
    slope := 1, intercept := 0, windowCenter := some ((5 : ℚ) / 2),
    windowWidth := some 3, pixelData := [1, 2, 3, 4],
    rows := some 1, columns := some 2, height := some 1, width := some 2,
    color := false, invert := false, sizeInBytes := some 2 }

/-- C8 counterexample: on `dsTrailing` the decoder's pixel view holds 4
samples although rows×columns = 2 — the view is not bounded by the
pixel-data block (declared length 4) and spans the trailing bytes too. -/
theorem decode_pixel_view_spans_trailing_bytes_cex :
    createImageObjectFromDicom "x" dsTrailing = .ok imgTrailing ∧
    imgTrailing.pixelData.length = 4 ∧
    dsTrailing.rows? = some 1 ∧ dsTrailing.columns? = some 2 ∧
    (dsTrailing.pixelElement?.map PixelElement.length) = some 4 ∧
    (4 : Nat) ≠ 1 * 2 :=
  ⟨rfl, rfl, rfl, rfl, rfl, by decide⟩

/-- C8 amended: the pixel buffer is a signed 16-bit little-endian view
starting at the pixel-data element's offset, but it spans to the *end of
the payload buffer* — `(bufferLength − dataOffset) / 2` samples — rather
than exactly rows×columns samples of the block. -/
theorem decode_pixel_view_offset_to_buffer_end :
    ∀ (imageId : String) (ds : DataSet) (e : PixelElement) (image : Image),
      ds.pixelElement? = some e →
      createImageObjectFromDicom imageId ds = .ok image →
      image.pixelData = bytesToInt16 (ds.byteArray.drop e.dataOffset) ∧
      image.pixelData.length = (ds.byteArray.length - e.dataOffset) / 2 := by
  intro imageId ds e image hpe h
  simp only [createImageObjectFromDicom, hpe] at h
  split at h
  · exact absurd h (by simp)
  · injection h with h
    subst h
    refine ⟨rfl, ?_⟩
    simp only
    rw [bytesToInt16_length, List.length_drop]

/-- C8 witness: the view-extent theorem applied to the decode of
`dsTrailing`. -/
theorem decode_pixel_view_offset_to_buffer_end_witness :
    imgTrailing.pixelData = bytesToInt16 (dsTrailing.byteArray.drop 0) ∧
    imgTrailing.pixelData.length = (dsTrailing.byteArray.length - 0) / 2 :=
  decode_pixel_view_offset_to_buffer_end "x" dsTrailing
    { dataOffset := 0, length := 4 } imgTrailing rfl rfl

/-- C1: with `useWebworkersToFetch` set, the promise returned by `loadImage`
never settles — the executor's webworker branch returns without ever
invoking `resolve` or `reject`, and the installed `onmessage` handler only
pushes the worker back onto the pool — whereas the inline branch always
settles (resolves with the image or rejects with the fetch/parse/decode
error). -/
theorem loadImage_webworker_fetch_never_settles :
    ∀ (imageId : String) (fetchResult : Except JsError DataSet) (p : Option Bool),
      loadImage { useWebworkersToFetch := true, useWebworkersToParse := p }
          imageId fetchResult = .unsettled ∧
      loadImage { useWebworkersToFetch := false, useWebworkersToParse := p }
          imageId fetchResult ≠ .unsettled := by
  intro imageId fetchResult p
  refine ⟨rfl, ?_⟩
  cases fetchResult with
  | error e => simp [loadImage]
  | ok ds =>
    simp only [loadImage]
    cases createImageObjectFromDicom imageId ds <;> simp

/-- C5 counterexample: `authenticatedFetch` on a 401 response does *not*
fail — it triggers the sign-in side effect and then returns the non-ok
response to its caller. -/
theorem authenticatedFetch_401_returns_response_cex :
    authenticatedFetch (some "token") { ok := false, status := 401 }
      = (.ok (some { ok := false, status := 401 }), 1) ∧
    returnedOk (authenticatedFetch (some "token")
      { ok := false, status := 401 }).1 = true :=
  ⟨rfl, rfl⟩

/-- C5 amended: with a token present, `authenticatedFetch` throws exactly
for non-ok responses whose status is not 401; a 401 triggers one
`signInToGoogle` call and returns the response itself; sign-in is triggered
for a response failure only on 401 (and, separately, when no token exists,
where the function returns `undefined`). -/
theorem authenticatedFetch_signin_only_on_401 :
    ∀ (token : String) (r : Response),
      ((authenticatedFetch (some token) r).1 =
        if r.ok = false ∧ r.status ≠ 401 then .error (.httpError r.status)
        else .ok (some r)) ∧
      ((authenticatedFetch (some token) r).2 = 1 ↔ r.ok = false ∧ r.status = 401) ∧
      authenticatedFetch none r = (.ok none, 1) := by
  intro token r
  refine ⟨?_, ?_, rfl⟩ <;>
    · simp only [authenticatedFetch]
      rcases r with ⟨ok, status⟩
      cases ok <;> by_cases h : status = 401 <;> simp_all

/-- C6: acquisition pops the most recently released idle unit whenever the
free list is non-empty and leaves the creation counter unchanged; a new
unit is created (counter incremented) only on an empty free list; a unit
whose task finishes is pushed back onto the free list, and a subsequent
acquisition returns it without creating a new unit. -/
theorem pool_reuses_idle_units_before_creating :
    ∀ (avail : List WorkerUnit) (w : WorkerUnit) (created : Nat) (pool : WorkerPool),
      (acquireWebworker { availableWebworkers := avail ++ [w], createdCount := created }).1 = w ∧
      (acquireWebworker { availableWebworkers := avail ++ [w], createdCount := created }).2.createdCount = created ∧
      (acquireWebworker { availableWebworkers := avail ++ [w], createdCount := created }).1
        ∈ avail ++ [w] ∧
      (acquireWebworker { availableWebworkers := [], createdCount := created }).2.createdCount
        = created + 1 ∧
      (handleWorkerMessage pool w).availableWebworkers = pool.availableWebworkers ++ [w] ∧
      (acquireWebworker (handleWorkerMessage pool w)).1 = w ∧
      (acquireWebworker (handleWorkerMessage pool w)).2.createdCount = pool.createdCount := by
  intro avail w created pool
  simp [acquireWebworker, handleWorkerMessage, List.getLast?_concat]

/-- C7 counterexample: the loader's default configuration declares a single
flag `useWebworkersToFetch` whose default is `false` (inline), not `true`,
and declares no decode/parse offload flag at all. -/
theorem defaultConfig_single_flag_inline_cex :
    defaultConfig.useWebworkersToFetch = false ∧
    defaultConfig.useWebworkersToParse = none :=
  ⟨rfl, rfl⟩

/-- C7 amended: the configuration surface declares exactly one recognized
flag, `useWebworkersToFetch`, defaulting to `false`; it is toggleable via
`configure`; no parse/decode offload flag is declared, and `loadImage`'s
behaviour is independent of any `useWebworkersToParse` value a caller may
have merged in (the decode step always runs inline on the fetching
context). -/
theorem loader_config_single_fetch_flag :
    defaultConfig.useWebworkersToFetch = false ∧
    defaultConfig.useWebworkersToParse = none ∧
    (∀ (config : LoaderConfig) (b : Bool),
      (configure config
          { useWebworkersToFetch := some b, useWebworkersToParse := none }
        ).useWebworkersToFetch = b) ∧
    (∀ (fl : Bool) (p q : Option Bool) (imageId : String)
        (fetchResult : Except JsError DataSet),
      loadImage { useWebworkersToFetch := fl, useWebworkersToParse := p }
          imageId fetchResult =
        loadImage { useWebworkersToFetch := fl, useWebworkersToParse := q }
          imageId fetchResult) :=
  ⟨rfl, rfl, fun _ _ => rfl, fun _ _ _ _ _ => rfl⟩

/-- C9 counterexample: running one webworker fetch cycle from an empty pool
leaves the released unit on the free list with the cycle's `onmessage`
handler still installed — its state is not reset at release time. -/
theorem released_unit_keeps_handler_cex :
    (workerFetchCycle { availableWebworkers := [], createdCount := 0 } 7).availableWebworkers
      = [{ id := 0, onmessage := some 7 }] ∧
    ((workerFetchCycle { availableWebworkers := [], createdCount := 0 } 7).availableWebworkers.all
      fun u => u.onmessage == none) = false :=
  ⟨rfl, rfl⟩

/-- C9 amended: a unit is returned to the free list carrying the `onmessage`
handler installed for the task it just finished; the handler is only
replaced when the unit is next dispatched, not cleared at release. -/
theorem released_unit_retains_last_handler :
    (∀ (pool : WorkerPool) (g : Nat),
      (workerFetchCycle pool g).availableWebworkers.getLast?
        = some { id := (acquireWebworker pool).1.id, onmessage := some g }) ∧
    (∀ (w : WorkerUnit) (g : Nat), (dispatchFetch w g).onmessage = some g) := by
  refine ⟨?_, fun w g => rfl⟩
  intro pool g
  simp [workerFetchCycle, handleWorkerMessage, dispatchFetch, List.getLast?_concat]

/-- C10: `configure` merges `defaultConfig` before the new values, so the
recognized option `useWebworkersToFetch`, when absent from the argument, is
reset to its default `false` regardless of what an earlier `configure` call
set; in particular `configure({useWebworkersToParse: true})` after
`configure({useWebworkersToFetch: true})` leaves `useWebworkersToFetch =
false`. -/
theorem configure_resets_absent_recognized_option :
    (∀ (config : LoaderConfig) (parse : Option Bool),
      (configure config
          { useWebworkersToFetch := none, useWebworkersToParse := parse }
        ).useWebworkersToFetch = defaultConfig.useWebworkersToFetch) ∧
    configure
        (configure defaultConfig
          { useWebworkersToFetch := some true, useWebworkersToParse := none })
        { useWebworkersToFetch := none, useWebworkersToParse := some true }
      = { useWebworkersToFetch := false, useWebworkersToParse := some true } :=
  ⟨fun _ _ => rfl, rfl⟩

end DicomViewer
